import Mathlib

/-!
Shallow embedding of the gego execution engine (package scheduler, the
keyword-search path of the MongoDB store, and the shared string helpers),
translated from the Go sources.  Machine integers are modelled as Nat/Int
(no overflow is relevant to any of the operations embedded here), Go
`error` values are modelled as `Option String` (`none` = nil error) and
fallible adapter calls as `Except String GenResult`.  Durations are in
seconds, timestamps in an abstract Nat clock (Go `time.Time` zero value
is modelled as `0`).
-/

namespace Gego

/-! ### String helpers (Go standard library, as used by the sources) -/

/-- Go `strings.Contains s pat` on character lists: `pat` occurs as a
contiguous substring of `s`.  Case sensitive, exactly as in Go. -/
def containsSub (s pat : List Char) : Bool :=
  match s with
  | [] => pat.isEmpty
  | _ :: rest => pat.isPrefixOf s || containsSub rest pat

/-- Go `strings.Contains` on strings. -/
def containsStr (s pat : String) : Bool :=
  containsSub s.data pat.data

/-- Go `strings.ToLower`, restricted to the ASCII simple folding that the
claims exercise (`Char.toLower` lowers `A`..`Z`). -/
def lowerStr (s : String) : String :=
  ⟨s.data.map Char.toLower⟩

/-! ### shared.CountOccurrences (src/unnamed/part_008, lines 56-72)

The Go loop repeatedly takes the leftmost occurrence of the lowered
keyword in the remainder of the lowered text and skips past it, which is
the same as a left-to-right scan that, at each position, either consumes a
whole occurrence or advances one character.  The scan consumes at least
one character per step as long as the keyword is non-empty, so fuel
`text.length + 1` never runs out; on an empty keyword the Go loop does not
terminate (strings.Index always returns 0), a case no caller reaches. -/

def countOccAux (kw : List Char) : Nat → List Char → Nat
  | 0, _ => 0
  | _ + 1, [] => 0
  | fuel + 1, c :: rest =>
    if kw.isPrefixOf (c :: rest) then
      1 + countOccAux kw fuel ((c :: rest).drop kw.length)
    else
      countOccAux kw fuel rest

/-- Go `shared.CountOccurrences text keyword`: case-insensitive,
non-overlapping, left-to-right occurrence count. -/
def CountOccurrences (text keyword : String) : Nat :=
  countOccAux (lowerStr keyword).data (text.length + 1) (lowerStr text).data

/-- Case-insensitive substring containment: the filter of the MongoDB
`$regex .. $options "i"` query of SearchKeyword (the keyword is quoted by
`regexp.QuoteMeta`, so the regex matches the keyword literally). -/
def containsCI (s pat : String) : Bool :=
  containsStr (lowerStr s) (lowerStr pat)

/-! ### Data model (src/internal/models/models.go) -/

/-- models.Prompt, the fields read by the scheduler. -/
structure Prompt where
  id : String
  template : String
deriving DecidableEq

/-- models.LLMConfig, the fields read by the scheduler.  The free-form
`Config` options map and the timestamps are never inspected by the
embedded code paths. -/
structure LLMConfig where
  id : String
  name : String
  provider : String
  model : String
  apiKey : String
  baseURL : String
  enabled : Bool
deriving DecidableEq

/-- models.Schedule, the fields read by the scheduler.  `temperature` is a
rational; the sentinel `-1` selects runtime random sampling. -/
structure Schedule where
  id : String
  name : String
  promptIDs : List String
  llmIDs : List String
  cronExpr : String
  temperature : ℚ
  enabled : Bool
deriving DecidableEq

/-- models.Response, the fields the scheduler writes and the search path
reads.  `ID` (a fresh uuid) and the never-populated `Metadata` bag are
omitted; `createdAt` is an abstract instant (Go zero time = 0). -/
structure Response where
  promptID : String
  promptText : String
  llmID : String
  llmName : String
  llmProvider : String
  llmModel : String
  responseText : String
  temperature : ℚ
  scheduleID : String
  tokensUsed : Nat
  latencyMs : Int
  error : String
  createdAt : Nat
deriving DecidableEq

/-- llm.Response, the adapter generation result (fields as produced by the
adapters in src/internal/llm and consumed by the scheduler). -/
structure GenResult where
  text : String
  tokensUsed : Nat
  latencyMs : Int
  model : String
  provider : String
  error : String
deriving DecidableEq

/-! ### Scheduler constants (src/unnamed/part_013, lines 21-32) -/

def DefaultMaxRetries : Nat := 3

/-- DefaultRetryDelay = 30 * time.Second, in seconds. -/
def DefaultRetryDelaySec : Nat := 30

def RequestsPerMinute : Nat := 6

def RateLimitBurst : Nat := 1

/-! ### Rate limiter (golang.org/x/time/rate.Limiter shape, and
getRateLimiter from src/unnamed/part_013, lines 447-470) -/

/-- The two parameters the scheduler fixes on every limiter it creates:
`rate.Every(time.Minute/RequestsPerMinute)` (the refill interval, in
seconds) and the burst capacity. -/
structure Limiter where
  intervalSec : Nat
  burst : Nat
deriving DecidableEq

/-- The limiter built at src/unnamed/part_013 line 467:
`rate.NewLimiter(rate.Every(time.Minute/RequestsPerMinute), RateLimitBurst)`. -/
def newRateLimiter : Limiter :=
  { intervalSec := 60 / RequestsPerMinute, burst := RateLimitBurst }

/-- Association lookup in the `rateLimiters` map (keyed by provider name). -/
def lookupLimiter : List (String × Limiter) → String → Option Limiter
  | [], _ => none
  | (k, v) :: rest, p => if k = p then some v else lookupLimiter rest p

/-- getRateLimiter: return the existing limiter for the provider, or
lazily create one with the fixed shape and record it.  The Go
double-checked locking collapses to a single lookup in this sequential
embedding; the mutex discipline itself is a concurrency concern outside
the embedding. -/
def getRateLimiter (m : List (String × Limiter)) (provider : String) :
    Limiter × List (String × Limiter) :=
  match lookupLimiter m provider with
  | some l => (l, m)
  | none => (newRateLimiter, (provider, newRateLimiter) :: m)

/-! ### Execution environment

The engine's collaborators (registry, adapters, stores, clock, PRNG) are
oracles supplied by the environment; successive calls are indexed by
per-kind counters held in `EngineState`. -/

/-- Outcomes and collaborators visible to one schedule firing or ad-hoc
run.  `generate k` is the outcome of the k-th adapter call (`Except.error`
is a non-nil Go transport error); `createResponse k` the outcome of the
k-th db.CreateResponse (`none` = success); `rand k` the k-th
rand.Float64() draw; `elapsedMs k` the wall-clock milliseconds measured
around the k-th adapter call. -/
structure Env where
  providers : String → Bool
  generate : Nat → Except String GenResult
  createResponse : Nat → Option String
  getPrompt : String → Option Prompt
  getLLM : String → Option LLMConfig
  rand : Nat → ℚ
  elapsedMs : Nat → Int
  now : Nat

/-- Call counters threaded through a run. -/
structure EngineState where
  gen : Nat
  writes : Nat
  draws : Nat
deriving DecidableEq

/-- Observable actions of a run, in program order.  `sleep` is
time.Sleep with the duration in seconds; `rateWait` is the blocking
`rateLimiter.Wait`; `write` is a db.CreateResponse invocation. -/
inductive Event where
  | rateWait (provider : String)
  | generate (provider model promptText : String) (temperature : ℚ)
  | write (r : Response)
  | sleep (seconds : Nat)
deriving DecidableEq

/-- The sleep durations of a trace, in order. -/
def sleeps (evs : List Event) : List Nat :=
  evs.filterMap fun e =>
    match e with
    | Event.sleep d => some d
    | _ => none

/-- The temperatures of the Responses written in a trace, in order. -/
def writtenTemps (evs : List Event) : List ℚ :=
  evs.filterMap fun e =>
    match e with
    | Event.write r => some r.temperature
    | _ => none

/-- The Responses written in a trace, in order. -/
def writtenResponses (evs : List Event) : List Response :=
  evs.filterMap fun e =>
    match e with
    | Event.write r => some r
    | _ => none

/-- The number of adapter `generate` calls in a trace. -/
def generateCount (evs : List Event) : Nat :=
  (evs.filter fun e =>
    match e with
    | Event.generate _ _ _ _ => true
    | _ => false).length

/-! ### executePromptWithLLM (src/unnamed/part_013, lines 313-395)

Order of effects, exactly as in the source: registry lookup (return an
error, with no events, when the provider is absent); rate-limiter wait
(fails when the context is cancelled); adapter generate; and one
db.CreateResponse on either generate outcome — an error Response carrying
err.Error() on a transport error, or a Response copying the result's
text/tokens/latency/error otherwise.  The function returns the Go error
of the attempt: the CreateResponse outcome on both generate branches. -/
def executePromptWithLLM (env : Env) (ctxCancelled : Bool) (scheduleID : String)
    (prompt : Prompt) (llmConfig : LLMConfig) (temperature : ℚ)
    (st : EngineState) : List Event × EngineState × Option String :=
  if ¬ env.providers llmConfig.provider then
    ([], st, some ("provider not found: " ++ llmConfig.provider))
  else if ctxCancelled then
    ([Event.rateWait llmConfig.provider], st,
      some "rate limiter wait failed: context canceled")
  else
    match env.generate st.gen with
    | Except.error e =>
      let r : Response :=
        { promptID := prompt.id
          promptText := prompt.template
          llmID := llmConfig.id
          llmName := llmConfig.name
          llmProvider := llmConfig.provider
          llmModel := llmConfig.model
          responseText := ""
          temperature := temperature
          scheduleID := scheduleID
          tokensUsed := 0
          latencyMs := env.elapsedMs st.gen
          error := e
          createdAt := env.now }
      ([Event.rateWait llmConfig.provider,
        Event.generate llmConfig.provider llmConfig.model prompt.template temperature,
        Event.write r],
       ⟨st.gen + 1, st.writes + 1, st.draws⟩,
       env.createResponse st.writes)
    | Except.ok res =>
      let r : Response :=
        { promptID := prompt.id
          promptText := prompt.template
          llmID := llmConfig.id
          llmName := llmConfig.name
          llmProvider := llmConfig.provider
          llmModel := llmConfig.model
          responseText := res.text
          temperature := temperature
          scheduleID := scheduleID
          tokensUsed := res.tokensUsed
          latencyMs := res.latencyMs
          error := res.error
          createdAt := env.now }
      ([Event.rateWait llmConfig.provider,
        Event.generate llmConfig.provider llmConfig.model prompt.template temperature,
        Event.write r],
       ⟨st.gen + 1, st.writes + 1, st.draws⟩,
       env.createResponse st.writes)

/-- The rate-limit classification of src/unnamed/part_013 line 297:
`strings.Contains` on the error message for each of the three markers —
case sensitive, as in the source. -/
def isRateLimitMsg (msg : String) : Bool :=
  containsStr msg "429" || containsStr msg "quota" || containsStr msg "rate limit"

/-- One round of the retry loop of executePromptWithRetry
(src/unnamed/part_013, lines 277-311), recursing on the number of
attempts remaining.  On a nil error the loop returns nil immediately; on
an error it selects the delay (120 seconds for rate-limit-classified
messages, otherwise the caller's retryDelay), sleeps only when attempts
remain, and after the final attempt returns the formatted terminal error
built from maxRetries and the last error message. -/
def retryAux (env : Env) (ctxCancelled : Bool) (scheduleID : String)
    (prompt : Prompt) (llmConfig : LLMConfig) (temperature : ℚ)
    (maxRetries retryDelay : Nat) :
    Nat → EngineState → String → List Event × EngineState × Option String
  | 0, st, lastErr =>
    ([], st,
      some ("failed after " ++ toString maxRetries ++ " attempts, last error: " ++ lastErr))
  | n + 1, st, _ =>
    match executePromptWithLLM env ctxCancelled scheduleID prompt llmConfig temperature st with
    | (evs, st1, none) => (evs, st1, none)
    | (evs, st1, some e) =>
      let delay := if isRateLimitMsg e then 120 else retryDelay
      let pre := if n = 0 then ([] : List Event) else [Event.sleep delay]
      let rest := retryAux env ctxCancelled scheduleID prompt llmConfig temperature
        maxRetries retryDelay n st1 e
      (evs ++ pre ++ rest.1, rest.2.1, rest.2.2)

/-- executePromptWithRetry (src/unnamed/part_013, lines 277-311). -/
def executePromptWithRetry (env : Env) (ctxCancelled : Bool) (scheduleID : String)
    (prompt : Prompt) (llmConfig : LLMConfig) (temperature : ℚ)
    (maxRetries retryDelay : Nat) (st : EngineState) :
    List Event × EngineState × Option String :=
  retryAux env ctxCancelled scheduleID prompt llmConfig temperature
    maxRetries retryDelay maxRetries st ""

/-! ### executeSchedule (src/unnamed/part_013, lines 177-256) -/

/-- The prompt-loading loop (lines 183-193): GetPrompt each id in order,
skipping lookup failures. -/
def loadPrompts (env : Env) (ids : List String) : List Prompt :=
  ids.filterMap env.getPrompt

/-- The LLM-loading loop (lines 196-210): GetLLM each id in order,
skipping lookup failures and disabled configs. -/
def loadLLMs (env : Env) (ids : List String) : List LLMConfig :=
  (ids.filterMap env.getLLM).filter fun l => l.enabled

/-- The body of one dispatched goroutine (lines 221-239): resolve the
temperature — a fresh rand.Float64() draw when the schedule carries the
sentinel -1, taken inside this (prompt, model) unit — then run
executePromptWithRetry with the default retry parameters, discarding its
returned error (the source only logs it). -/
def runUnit (env : Env) (ctxCancelled : Bool) (schedule : Schedule)
    (p : Prompt) (l : LLMConfig) (st : EngineState) : List Event × EngineState :=
  let td : ℚ × EngineState :=
    if schedule.temperature = -1 then
      (env.rand st.draws, ⟨st.gen, st.writes, st.draws + 1⟩)
    else
      (schedule.temperature, st)
  let out := executePromptWithRetry env ctxCancelled schedule.id p l td.1
    DefaultMaxRetries DefaultRetryDelaySec td.2
  (out.1, out.2.1)

/-- The fan-out over the (prompt, model) matrix, sequenced in launch
order (prompt-major, model-minor); the goroutines of the source each
perform exactly the unit below, and the firing waits for all of them. -/
def runPairs (env : Env) (ctxCancelled : Bool) (schedule : Schedule) :
    List (Prompt × LLMConfig) → EngineState → List Event × EngineState
  | [], st => ([], st)
  | (p, l) :: rest, st =>
    let u := runUnit env ctxCancelled schedule p l st
    let r := runPairs env ctxCancelled schedule rest u.2
    (u.1 ++ r.1, r.2)

/-- executeSchedule: load prompts and enabled LLMs, dispatch every
(prompt, model) pair, wait, then update last-run (a config-store write
with no bearing on the claims, elided).  The source always returns nil. -/
def executeSchedule (env : Env) (ctxCancelled : Bool) (schedule : Schedule)
    (st : EngineState) : List Event × EngineState :=
  let prompts := loadPrompts env schedule.promptIDs
  let llms := loadLLMs env schedule.llmIDs
  let pairs := prompts.flatMap fun p => llms.map fun l => (p, l)
  runPairs env ctxCancelled schedule pairs st

/-! ### ExecutePrompt (src/unnamed/part_013, lines 407-438) -/

/-- The ad-hoc fan-out over the resolved LLM list: each unit runs
executePromptWithRetry with an empty schedule id and the literal
temperature 0.7, discarding its returned error (the source only logs
it).  Note the LLM-loading loop of ExecutePrompt (lines 414-422) skips
lookup failures but performs no enabled check. -/
def runAdHoc (env : Env) (ctxCancelled : Bool) (prompt : Prompt) :
    List LLMConfig → EngineState → List Event × EngineState
  | [], st => ([], st)
  | l :: rest, st =>
    let out := executePromptWithRetry env ctxCancelled "" prompt l ((7 : ℚ) / 10)
      DefaultMaxRetries DefaultRetryDelaySec st
    let r := runAdHoc env ctxCancelled prompt rest out.2.1
    (out.1 ++ r.1, r.2)

/-- ExecutePrompt: resolve the prompt (failing the call on a lookup
error), resolve each LLM id (skipping failures, keeping disabled
configs), run every unit, return nil. -/
def ExecutePrompt (env : Env) (ctxCancelled : Bool) (promptID : String)
    (llmIDs : List String) (st : EngineState) :
    List Event × EngineState × Option String :=
  match env.getPrompt promptID with
  | none => ([], st, some "failed to get prompt")
  | some prompt =>
    let llms := llmIDs.filterMap env.getLLM
    let out := runAdHoc env ctxCancelled prompt llms st
    (out.1, out.2, none)

/-! ### Supervisor stop and the cron job closure
(src/unnamed/part_013, lines 113-132 and 152-175) -/

/-- The supervisor state touched by Stop: the running flag and the
schedule-id to cron-entry map.  The Scheduler struct holds no root
context and no cancel function. -/
structure SchedulerState where
  running : Bool
  scheduleEntries : List (String × Nat)
deriving DecidableEq

/-- Stop (lines 113-132): a no-op when not running; otherwise stop the
cron scheduler (which halts future firings but does not interrupt or wait
for in-flight jobs), clear the running flag, and clear the entry map.  No
context is cancelled — the struct has none to cancel. -/
def Stop (s : SchedulerState) : SchedulerState :=
  if ¬ s.running then s
  else { running := false, scheduleEntries := [] }

/-- The context under which registered cron jobs run: the closure built
in registerSchedule (line 157) calls executeSchedule with
context.Background(), which is never cancelled. -/
def backgroundCtxCancelled : Bool := false

/-- The job closure registered with cron by registerSchedule: it executes
the schedule under context.Background(), independent of the supervisor
state; its error result is only logged. -/
def jobFunc (env : Env) (schedule : Schedule) (st : EngineState) :
    List Event × EngineState :=
  executeSchedule env backgroundCtxCancelled schedule st

/-! ### SearchKeyword (src/internal/db/mongodb/search.go, lines 15-95)

The MongoDB Find query selects the documents whose response_text matches
the quoted keyword case-insensitively and whose created_at lies in the
inclusive [startTime, endTime] window (each bound only when supplied);
the cursor loop then aggregates.  The embedding filters the collection
with exactly that predicate and folds the loop body over the matches in
cursor order. -/

/-- models.KeywordStats, the fields SearchKeyword populates.  The Go
count maps are association lists here. -/
structure KeywordStats where
  keyword : String
  totalMentions : Nat
  uniquePrompts : Nat
  uniqueLLMs : Nat
  byPrompt : List (String × Nat)
  byLLM : List (String × Nat)
  byProvider : List (String × Nat)
  firstSeen : Nat
  lastSeen : Nat
deriving DecidableEq

/-- Increment `m[k]` by `c` on an association list (Go map increment). -/
def bump : List (String × Nat) → String → Nat → List (String × Nat)
  | [], k, c => [(k, c)]
  | (k0, v) :: rest, k, c =>
    if k0 = k then (k0, v + c) :: rest else (k0, v) :: bump rest k c

/-- The loop-carried aggregation state of SearchKeyword: the partial
stats plus the promptsSeen / llmsSeen sets. -/
structure SearchAcc where
  totalMentions : Nat
  byPrompt : List (String × Nat)
  byLLM : List (String × Nat)
  byProvider : List (String × Nat)
  firstSeen : Nat
  lastSeen : Nat
  promptsSeen : List String
  llmsSeen : List String

/-- The zero-valued stats and empty seen-sets before the cursor loop. -/
def searchInit : SearchAcc :=
  { totalMentions := 0, byPrompt := [], byLLM := [], byProvider := []
    firstSeen := 0, lastSeen := 0, promptsSeen := [], llmsSeen := [] }

/-- One iteration of the cursor loop (lines 54-89): count occurrences,
add to the totals and the three breakdown maps, insert into the seen
sets, and update first/last-seen with the IsZero checks of the source
(the Nat 0 plays the Go zero time). -/
def searchStep (keyword : String) (acc : SearchAcc) (d : Response) : SearchAcc :=
  let count := CountOccurrences d.responseText keyword
  { totalMentions := acc.totalMentions + count
    byPrompt := bump acc.byPrompt d.promptID count
    byLLM := bump acc.byLLM d.llmID count
    byProvider := bump acc.byProvider d.llmProvider count
    firstSeen :=
      if acc.firstSeen = 0 ∨ d.createdAt < acc.firstSeen then d.createdAt else acc.firstSeen
    lastSeen :=
      if acc.lastSeen = 0 ∨ acc.lastSeen < d.createdAt then d.createdAt else acc.lastSeen
    promptsSeen :=
      if acc.promptsSeen.contains d.promptID then acc.promptsSeen
      else d.promptID :: acc.promptsSeen
    llmsSeen :=
      if acc.llmsSeen.contains d.llmID then acc.llmsSeen
      else d.llmID :: acc.llmsSeen }

/-- The inclusive created_at window of the Find query ($gte / $lte, each
only when the bound is supplied). -/
def inWindow (startT endT : Option Nat) (t : Nat) : Bool :=
  (match startT with
   | some s => decide (s ≤ t)
   | none => true)
  && (match endT with
      | some e => decide (t ≤ e)
      | none => true)

/-- The document predicate of the Find query: case-insensitive substring
match on response_text, and the created_at window. -/
def matchesQuery (keyword : String) (startT endT : Option Nat) (d : Response) : Bool :=
  containsCI d.responseText keyword && inWindow startT endT d.createdAt

/-- SearchKeyword over the responses collection (given in cursor order). -/
def SearchKeyword (docs : List Response) (keyword : String)
    (startT endT : Option Nat) : KeywordStats :=
  let ms := docs.filter (matchesQuery keyword startT endT)
  let acc := ms.foldl (searchStep keyword) searchInit
  { keyword := keyword
    totalMentions := acc.totalMentions
    uniquePrompts := acc.promptsSeen.length
    uniqueLLMs := acc.llmsSeen.length
    byPrompt := acc.byPrompt
    byLLM := acc.byLLM
    byProvider := acc.byProvider
    firstSeen := acc.firstSeen
    lastSeen := acc.lastSeen }

/-- The error Response built at src/unnamed/part_013 lines 357-370. -/
def errorResponse (env : Env) (sid : String) (p : Prompt) (l : LLMConfig)
    (t : ℚ) (st : EngineState) (e : String) : Response :=
  { promptID := p.id, promptText := p.template, llmID := l.id, llmName := l.name
    llmProvider := l.provider, llmModel := l.model, responseText := ""
    temperature := t, scheduleID := sid, tokensUsed := 0
    latencyMs := env.elapsedMs st.gen, error := e, createdAt := env.now }

/-- The success-path Response built at src/unnamed/part_013 lines 377-392. -/
def okResponse (env : Env) (sid : String) (p : Prompt) (l : LLMConfig)
    (t : ℚ) (g : GenResult) : Response :=
  { promptID := p.id, promptText := p.template, llmID := l.id, llmName := l.name
    llmProvider := l.provider, llmModel := l.model, responseText := g.text
    temperature := t, scheduleID := sid, tokensUsed := g.tokensUsed
    latencyMs := g.latencyMs, error := g.error, createdAt := env.now }

/-! ### Concrete fixtures used by the counterexamples and witnesses -/

/-- A sample prompt. -/
def pX : Prompt := ⟨"p1", "What is the best streaming service?"⟩

/-- A sample enabled model configuration on provider `prov`. -/
def lX : LLMConfig := ⟨"m1", "Model One", "prov", "mdl", "key", "", true⟩

/-- A sample disabled model configuration. -/
def lDisabled : LLMConfig := ⟨"m2", "Model Two", "prov", "mdl", "key", "", false⟩

/-- A successful generation result with non-empty text. -/
def okGen : GenResult := ⟨"hi", 3, 7, "mdl", "prov", ""⟩

/-- A successful generation result with empty text and empty error string. -/
def emptyGen : GenResult := ⟨"", 0, 7, "mdl", "prov", ""⟩

/-- The rational 3/10, given in reduced constructor form so that kernel
evaluation never has to normalize it. -/
def q3o10 : ℚ := ⟨3, 10, by decide, by decide⟩

/-- The rational 7/10 in reduced constructor form. -/
def q7o10 : ℚ := ⟨7, 10, by decide, by decide⟩

/-- A benign environment: every provider registered, every adapter call
succeeds with `okGen`, every store write succeeds, lookups resolve to the
fixtures, and the PRNG stream starts 3/10, 7/10, 7/10, ... -/
def envBase : Env :=
  { providers := fun _ => true
    generate := fun _ => Except.ok okGen
    createResponse := fun _ => none
    getPrompt := fun _ => some pX
    getLLM := fun i => some ⟨i, "Model One", "prov", "mdl", "key", "", true⟩
    rand := fun k => if k = 0 then q3o10 else q7o10
    elapsedMs := fun _ => 5
    now := 100 }

/-- Environment whose adapter always fails with transport error `boom`. -/
def envC1 : Env := { envBase with generate := fun _ => Except.error "boom" }

/-- A schedule carrying the random-temperature sentinel, one prompt, two models. -/
def schedC2 : Schedule := ⟨"s1", "S", ["p1"], ["m1", "m2"], "* * * * *", -1, true⟩

/-- Environment whose store writes always fail with a non-rate-limit message. -/
def envC3 : Env := { envBase with createResponse := fun _ => some "db down" }

/-- A fixed-temperature schedule with one prompt and one model. -/
def schedC3 : Schedule := ⟨"s1", "S", ["p1"], ["m1"], "* * * * *", (1 : ℚ) / 2, true⟩

/-- Environment whose store writes always fail with an upper-case quota message. -/
def envC5 : Env := { envBase with createResponse := fun _ => some "QUOTA limit hit" }

/-- Environment with an empty provider registry. -/
def envC6 : Env := { envBase with providers := fun _ => false }

/-- A model configuration naming an unregistered provider. -/
def lC6 : LLMConfig := ⟨"m1", "Model One", "nope", "mdl", "key", "", true⟩

/-- Environment whose model lookups resolve to a disabled configuration. -/
def envC7 : Env := { envBase with getLLM := fun _ => some lDisabled }

/-- Environment whose adapter succeeds with empty text and empty error. -/
def envC8 : Env := { envBase with generate := fun _ => Except.ok emptyGen }

/-- A three-document responses collection: two texts contain `Netflix`
case-insensitively, one does not. -/
def docsC9 : List Response :=
  [⟨"p1", "t", "m1", "N", "prov", "mdl", "Netflix and Disney", 1, "", 0, 0, "", 5⟩,
   ⟨"p2", "t", "m2", "N", "prov", "mdl", "netflix only", 1, "", 0, 0, "", 3⟩,
   ⟨"p1", "t", "m1", "N", "prov", "mdl", "nothing here", 1, "", 0, 0, "", 9⟩]

/-- The model configuration `envBase.getLLM` resolves for id `m1`. -/
def lM1 : LLMConfig := ⟨"m1", "Model One", "prov", "mdl", "key", "", true⟩

/-- The first-seen accumulation of the SearchKeyword cursor loop, on the
bare created_at sequence: 0 plays the Go zero time, and a smaller
non-zero instant replaces the accumulator. -/
def foldFirst : Nat → List Nat → Nat
  | a, [] => a
  | a, c :: rest => foldFirst (if a = 0 ∨ c < a then c else a) rest

/-- The last-seen accumulation of the SearchKeyword cursor loop. -/
def foldLast : Nat → List Nat → Nat
  | a, [] => a
  | a, c :: rest => foldLast (if a = 0 ∨ a < c then c else a) rest

/-! ### Classification of the events a single execution unit can emit -/

/-- The shape every event emitted on behalf of one (prompt, model, temperature,
schedule-id) unit has: rate waits and generate calls name the unit's provider
and configuration, written Responses snapshot the unit's prompt and model
fields and carry the unit's temperature and schedule id, and sleeps last
either the baseline delay or the 120-second rate-limit delay. -/
def EventFromUnit (sid : String) (p : Prompt) (l : LLMConfig) (t : ℚ)
    (delay : Nat) : Event → Prop
  | Event.rateWait prov => prov = l.provider
  | Event.generate prov mdl ptxt tmp =>
    prov = l.provider ∧ mdl = l.model ∧ ptxt = p.template ∧ tmp = t
  | Event.write r =>
    r.promptID = p.id ∧ r.promptText = p.template ∧ r.llmID = l.id ∧
    r.llmName = l.name ∧ r.llmProvider = l.provider ∧ r.llmModel = l.model ∧
    r.temperature = t ∧ r.scheduleID = sid
  | Event.sleep d => d = delay ∨ d = 120

theorem eventFromUnit_executePromptWithLLM (env : Env) (ctx : Bool) (sid : String)
    (p : Prompt) (l : LLMConfig) (t : ℚ) (delay : Nat) (st : EngineState) :
    ∀ e ∈ (executePromptWithLLM env ctx sid p l t st).1, EventFromUnit sid p l t delay e := by
  intro e he
  unfold executePromptWithLLM at he
  split at he
  · simp at he
  · split at he
    · simp at he
      subst he
      simp [EventFromUnit]
    · split at he
      · simp at he
        rcases he with h | h | h <;> subst h <;> simp [EventFromUnit]
      · simp at he
        rcases he with h | h | h <;> subst h <;> simp [EventFromUnit]

theorem eventFromUnit_retryAux (env : Env) (ctx : Bool) (sid : String)
    (p : Prompt) (l : LLMConfig) (t : ℚ) (maxR delay : Nat) :
    ∀ (n : Nat) (st : EngineState) (lastErr : String),
      ∀ e ∈ (retryAux env ctx sid p l t maxR delay n st lastErr).1,
        EventFromUnit sid p l t delay e := by
  intro n
  induction n with
  | zero =>
    intro st lastErr e he
    simp [retryAux] at he
  | succ n ih =>
    intro st lastErr e he
    rw [retryAux] at he
    rcases hout : executePromptWithLLM env ctx sid p l t st with ⟨evs, st1, err⟩
    rw [hout] at he
    have hevs : ∀ e ∈ evs, EventFromUnit sid p l t delay e := by
      intro e h
      have := eventFromUnit_executePromptWithLLM env ctx sid p l t delay st e
      rw [hout] at this
      exact this h
    cases err with
    | none =>
      simp at he
      exact hevs e he
    | some msg =>
      simp at he
      rcases he with h | h | h
      · exact hevs e h
      · rcases h with ⟨hn, hd⟩
        subst hd
        by_cases hcls : isRateLimitMsg msg
        · simp [hcls, EventFromUnit]
        · simp [hcls, EventFromUnit]
      · exact ih st1 msg e h

theorem eventFromUnit_executePromptWithRetry (env : Env) (ctx : Bool) (sid : String)
    (p : Prompt) (l : LLMConfig) (t : ℚ) (maxR delay : Nat) (st : EngineState) :
    ∀ e ∈ (executePromptWithRetry env ctx sid p l t maxR delay st).1,
      EventFromUnit sid p l t delay e :=
  eventFromUnit_retryAux env ctx sid p l t maxR delay maxR st ""

/-! ### State-threading facts: the random-draw counter is touched only by
the per-unit temperature resolution, never by an attempt or retry. -/

theorem executePromptWithLLM_draws (env : Env) (ctx : Bool) (sid : String)
    (p : Prompt) (l : LLMConfig) (t : ℚ) (st : EngineState) :
    (executePromptWithLLM env ctx sid p l t st).2.1.draws = st.draws := by
  unfold executePromptWithLLM
  split
  · rfl
  · split
    · rfl
    · split <;> rfl

theorem retryAux_draws (env : Env) (ctx : Bool) (sid : String)
    (p : Prompt) (l : LLMConfig) (t : ℚ) (maxR delay : Nat) :
    ∀ (n : Nat) (st : EngineState) (lastErr : String),
      (retryAux env ctx sid p l t maxR delay n st lastErr).2.1.draws = st.draws := by
  intro n
  induction n with
  | zero => intro st lastErr; simp [retryAux]
  | succ n ih =>
    intro st lastErr
    rw [retryAux]
    rcases hout : executePromptWithLLM env ctx sid p l t st with ⟨evs, st1, err⟩
    have h1 : st1.draws = st.draws := by
      have := executePromptWithLLM_draws env ctx sid p l t st
      rw [hout] at this
      exact this
    cases err with
    | none => simpa using h1
    | some msg =>
      simp only []
      rw [ih st1 msg, h1]

/-! ### Equation lemmas for one attempt -/

theorem executePromptWithLLM_genError_eq (env : Env) (sid : String) (p : Prompt)
    (l : LLMConfig) (t : ℚ) (st : EngineState) (e : String)
    (hprov : env.providers l.provider = true)
    (hgen : env.generate st.gen = Except.error e) :
    executePromptWithLLM env false sid p l t st =
      ([Event.rateWait l.provider,
        Event.generate l.provider l.model p.template t,
        Event.write (errorResponse env sid p l t st e)],
       ⟨st.gen + 1, st.writes + 1, st.draws⟩, env.createResponse st.writes) := by
  simp [executePromptWithLLM, hprov, hgen, errorResponse]

theorem executePromptWithLLM_genOk_eq (env : Env) (sid : String) (p : Prompt)
    (l : LLMConfig) (t : ℚ) (st : EngineState) (g : GenResult)
    (hprov : env.providers l.provider = true)
    (hgen : env.generate st.gen = Except.ok g) :
    executePromptWithLLM env false sid p l t st =
      ([Event.rateWait l.provider,
        Event.generate l.provider l.model p.template t,
        Event.write (okResponse env sid p l t g)],
       ⟨st.gen + 1, st.writes + 1, st.draws⟩, env.createResponse st.writes) := by
  simp [executePromptWithLLM, hprov, hgen, okResponse]

/-! ### Step lemmas for the retry loop -/

theorem retryAux_attempt_ok (env : Env) (ctx : Bool) (sid : String) (p : Prompt)
    (l : LLMConfig) (t : ℚ) (maxR delay n : Nat) (st : EngineState) (lastErr : String)
    (evs : List Event) (st1 : EngineState)
    (h : executePromptWithLLM env ctx sid p l t st = (evs, st1, none)) :
    retryAux env ctx sid p l t maxR delay (n + 1) st lastErr = (evs, st1, none) := by
  rw [retryAux, h]

theorem retryAux_attempt_fail (env : Env) (ctx : Bool) (sid : String) (p : Prompt)
    (l : LLMConfig) (t : ℚ) (maxR delay n : Nat) (st : EngineState) (lastErr : String)
    (evs : List Event) (st1 : EngineState) (msg : String)
    (h : executePromptWithLLM env ctx sid p l t st = (evs, st1, some msg)) :
    retryAux env ctx sid p l t maxR delay (n + 1) st lastErr =
      (evs ++
        (if n = 0 then ([] : List Event)
         else [Event.sleep (if isRateLimitMsg msg then 120 else delay)]) ++
        (retryAux env ctx sid p l t maxR delay n st1 msg).1,
       (retryAux env ctx sid p l t maxR delay n st1 msg).2.1,
       (retryAux env ctx sid p l t maxR delay n st1 msg).2.2) := by
  rw [retryAux, h]

/-- The unit attempt when the provider is not registered: no events, the
state untouched, and the lookup error returned. -/
theorem executePromptWithLLM_noProvider_eq (env : Env) (ctx : Bool) (sid : String)
    (p : Prompt) (l : LLMConfig) (t : ℚ) (st : EngineState)
    (hprov : env.providers l.provider = false) :
    executePromptWithLLM env ctx sid p l t st =
      ([], st, some ("provider not found: " ++ l.provider)) := by
  simp [executePromptWithLLM, hprov]

/-! ### Claim C1 -/

/-- C1 (amended): when the registry resolves the provider, the context is
live and the store write succeeds, a generate failure — a transport error
or any returned result — terminates the unit in a SINGLE attempt: the
engine immediately writes one Response carrying the outcome (the error
string on a transport failure, the result fields otherwise) and the retry
wrapper returns success without waiting or re-invoking generate.  The
error Response is written on the first failure, not at exhaustion. -/
theorem c1_single_attempt_persists_error (env : Env) (sid : String) (p : Prompt)
    (l : LLMConfig) (t : ℚ) (st : EngineState)
    (hprov : env.providers l.provider = true)
    (hdb : env.createResponse st.writes = none) :
    (∀ e, env.generate st.gen = Except.error e →
      executePromptWithRetry env false sid p l t DefaultMaxRetries DefaultRetryDelaySec st =
        ([Event.rateWait l.provider,
          Event.generate l.provider l.model p.template t,
          Event.write (errorResponse env sid p l t st e)],
         ⟨st.gen + 1, st.writes + 1, st.draws⟩, none)) ∧
    (∀ g, env.generate st.gen = Except.ok g →
      executePromptWithRetry env false sid p l t DefaultMaxRetries DefaultRetryDelaySec st =
        ([Event.rateWait l.provider,
          Event.generate l.provider l.model p.template t,
          Event.write (okResponse env sid p l t g)],
         ⟨st.gen + 1, st.writes + 1, st.draws⟩, none)) := by
  constructor
  · intro e hgen
    have hu := executePromptWithLLM_genError_eq env sid p l t st e hprov hgen
    rw [hdb] at hu
    exact retryAux_attempt_ok env false sid p l t DefaultMaxRetries DefaultRetryDelaySec
      2 st "" _ _ hu
  · intro g hgen
    have hu := executePromptWithLLM_genOk_eq env sid p l t st g hprov hgen
    rw [hdb] at hu
    exact retryAux_attempt_ok env false sid p l t DefaultMaxRetries DefaultRetryDelaySec
      2 st "" _ _ hu

/-- The run of claim C1's counterexample. -/
theorem c1_counterexample :
    generateCount (executePromptWithRetry envC1 false "s1" pX lX ((1 : ℚ) / 2)
        DefaultMaxRetries DefaultRetryDelaySec ⟨0, 0, 0⟩).1 = 1 ∧
    sleeps (executePromptWithRetry envC1 false "s1" pX lX ((1 : ℚ) / 2)
        DefaultMaxRetries DefaultRetryDelaySec ⟨0, 0, 0⟩).1 = [] ∧
    (writtenResponses (executePromptWithRetry envC1 false "s1" pX lX ((1 : ℚ) / 2)
        DefaultMaxRetries DefaultRetryDelaySec ⟨0, 0, 0⟩).1).map (fun r => r.error)
      = ["boom"] ∧
    (executePromptWithRetry envC1 false "s1" pX lX ((1 : ℚ) / 2)
        DefaultMaxRetries DefaultRetryDelaySec ⟨0, 0, 0⟩).2.2 = none := by
  decide

/-- Witness for C1: the amended theorem applied to the `boom` environment. -/
theorem c1_witness :
    executePromptWithRetry envC1 false "s1" pX lX ((1 : ℚ) / 2)
        DefaultMaxRetries DefaultRetryDelaySec ⟨0, 0, 0⟩ =
      ([Event.rateWait lX.provider,
        Event.generate lX.provider lX.model pX.template ((1 : ℚ) / 2),
        Event.write (errorResponse envC1 "s1" pX lX ((1 : ℚ) / 2) ⟨0, 0, 0⟩ "boom")],
       ⟨1, 1, 0⟩, none) :=
  (c1_single_attempt_persists_error envC1 "s1" pX lX ((1 : ℚ) / 2) ⟨0, 0, 0⟩
    rfl rfl).1 "boom" rfl

/-! ### Claim C6 -/

/-- C6 (amended): when the provider is absent from the registry, the unit
returns the error `provider not found: <provider>` without invoking any
adapter and WITHOUT writing any Response; the retry wrapper re-attempts
twice more (sleeping the classified delay in between) and surfaces the
formatted terminal error to its caller, which only logs it. -/
theorem c6_missing_provider_no_write (env : Env) (ctx : Bool) (sid : String)
    (p : Prompt) (l : LLMConfig) (t : ℚ) (st : EngineState)
    (hprov : env.providers l.provider = false) :
    executePromptWithRetry env ctx sid p l t DefaultMaxRetries DefaultRetryDelaySec st =
      ([Event.sleep (if isRateLimitMsg ("provider not found: " ++ l.provider) then 120
          else DefaultRetryDelaySec),
        Event.sleep (if isRateLimitMsg ("provider not found: " ++ l.provider) then 120
          else DefaultRetryDelaySec)],
       st,
       some ("failed after " ++ toString DefaultMaxRetries ++ " attempts, last error: " ++
         ("provider not found: " ++ l.provider))) := by
  have hu := executePromptWithLLM_noProvider_eq env ctx sid p l t st hprov
  simp [executePromptWithRetry, retryAux, hu, DefaultMaxRetries, DefaultRetryDelaySec]

/-- The run of claim C6's counterexample: unregistered provider `nope`,
no Response written, no adapter invoked, only two 30-second sleeps and a
surfaced error. -/
theorem c6_counterexample :
    (executePromptWithRetry envC6 false "s1" pX lC6 ((1 : ℚ) / 2)
        DefaultMaxRetries DefaultRetryDelaySec ⟨0, 0, 0⟩).1 =
      [Event.sleep 30, Event.sleep 30] ∧
    writtenResponses (executePromptWithRetry envC6 false "s1" pX lC6 ((1 : ℚ) / 2)
        DefaultMaxRetries DefaultRetryDelaySec ⟨0, 0, 0⟩).1 = [] ∧
    generateCount (executePromptWithRetry envC6 false "s1" pX lC6 ((1 : ℚ) / 2)
        DefaultMaxRetries DefaultRetryDelaySec ⟨0, 0, 0⟩).1 = 0 ∧
    (executePromptWithRetry envC6 false "s1" pX lC6 ((1 : ℚ) / 2)
        DefaultMaxRetries DefaultRetryDelaySec ⟨0, 0, 0⟩).2.2 =
      some "failed after 3 attempts, last error: provider not found: nope" := by
  decide

/-- Witness for C6: the amended theorem applied to the `nope` environment. -/
theorem c6_witness :
    executePromptWithRetry envC6 false "s1" pX lC6 ((1 : ℚ) / 2)
        DefaultMaxRetries DefaultRetryDelaySec ⟨0, 0, 0⟩ =
      ([Event.sleep (if isRateLimitMsg ("provider not found: " ++ lC6.provider) then 120
          else DefaultRetryDelaySec),
        Event.sleep (if isRateLimitMsg ("provider not found: " ++ lC6.provider) then 120
          else DefaultRetryDelaySec)],
       ⟨0, 0, 0⟩,
       some ("failed after " ++ toString DefaultMaxRetries ++ " attempts, last error: " ++
         ("provider not found: " ++ lC6.provider))) :=
  c6_missing_provider_no_write envC6 false "s1" pX lC6 ((1 : ℚ) / 2) ⟨0, 0, 0⟩ rfl

/-! ### Claim C3 -/

/-- The unit attempt under a cancelled context: the rate-limiter wait
fails, nothing is generated or written, and the wait error is returned. -/
theorem executePromptWithLLM_cancelled_eq (env : Env) (sid : String)
    (p : Prompt) (l : LLMConfig) (t : ℚ) (st : EngineState)
    (hprov : env.providers l.provider = true) :
    executePromptWithLLM env true sid p l t st =
      ([Event.rateWait l.provider], st,
        some "rate limiter wait failed: context canceled") := by
  simp [executePromptWithLLM, hprov]

/-- C3 (amended): Stop only clears the running flag and the entry map —
the Scheduler holds no root context, registered jobs run executeSchedule
under context.Background() (never cancelled), and retry delays are
unconditional sleeps.  Even under a cancelled context the retry loop does
not abort: the rate-limiter wait error message contains `rate limit`, so
the loop performs two full 120-second sleeps before surfacing the error.
In-flight delays therefore run to completion after stop. -/
theorem c3_stop_does_not_cancel :
    (∀ s : SchedulerState, s.running = true → Stop s = ⟨false, []⟩) ∧
    (∀ (env : Env) (sched : Schedule) (st : EngineState),
      jobFunc env sched st = executeSchedule env false sched st) ∧
    (∀ (env : Env) (sid : String) (p : Prompt) (l : LLMConfig) (t : ℚ)
        (st : EngineState),
      env.providers l.provider = true →
      executePromptWithRetry env true sid p l t DefaultMaxRetries DefaultRetryDelaySec st =
        ([Event.rateWait l.provider, Event.sleep 120, Event.rateWait l.provider,
          Event.sleep 120, Event.rateWait l.provider],
         st,
         some ("failed after " ++ toString DefaultMaxRetries ++ " attempts, last error: " ++
           "rate limiter wait failed: context canceled"))) := by
  refine ⟨?_, ?_, ?_⟩
  · intro s hs
    simp [Stop, hs]
  · intro env sched st
    rfl
  · intro env sid p l t st hprov
    have hu := executePromptWithLLM_cancelled_eq env sid p l t st hprov
    have hcls : isRateLimitMsg "rate limiter wait failed: context canceled" = true := by
      decide
    simp [executePromptWithRetry, retryAux, hu, hcls, DefaultMaxRetries, DefaultRetryDelaySec]

/-- The run of claim C3's counterexample: after Stop (which only resets
the flag and map — nothing else changes anywhere), a firing started by
the cron job closure — which receives no cancellation signal, running
under context.Background() — still contains a full 30-second retry delay
in its trace. -/
theorem c3_counterexample :
    Stop ⟨true, [("s1", 5)]⟩ = ⟨false, []⟩ ∧
    backgroundCtxCancelled = false ∧
    Event.sleep DefaultRetryDelaySec ∈ (jobFunc envC3 schedC3 ⟨0, 0, 0⟩).1 := by
  decide

/-- Witness for C3: the amended theorem applied at a live provider under a
cancelled context. -/
theorem c3_witness :
    executePromptWithRetry envBase true "s1" pX lX ((1 : ℚ) / 2)
        DefaultMaxRetries DefaultRetryDelaySec ⟨0, 0, 0⟩ =
      ([Event.rateWait lX.provider, Event.sleep 120, Event.rateWait lX.provider,
        Event.sleep 120, Event.rateWait lX.provider],
       ⟨0, 0, 0⟩,
       some ("failed after " ++ toString DefaultMaxRetries ++ " attempts, last error: " ++
         "rate limiter wait failed: context canceled")) :=
  c3_stop_does_not_cancel.2.2 envBase "s1" pX lX ((1 : ℚ) / 2) ⟨0, 0, 0⟩ rfl

/-! ### Claim C5 -/

/-- The unit attempt when the store write fails: both generate branches
emit the three events and surface the write error. -/
theorem executePromptWithLLM_writeFail (env : Env) (sid : String) (p : Prompt)
    (l : LLMConfig) (t : ℚ) (st : EngineState) (msg : String)
    (hprov : env.providers l.provider = true)
    (hdb : env.createResponse st.writes = some msg) :
    ∃ r, executePromptWithLLM env false sid p l t st =
      ([Event.rateWait l.provider,
        Event.generate l.provider l.model p.template t,
        Event.write r],
       ⟨st.gen + 1, st.writes + 1, st.draws⟩, some msg) := by
  cases hg : env.generate st.gen with
  | error e =>
    exact ⟨_, by rw [executePromptWithLLM_genError_eq env sid p l t st e hprov hg, hdb]⟩
  | ok g =>
    exact ⟨_, by rw [executePromptWithLLM_genOk_eq env sid p l t st g hprov hg, hdb]⟩

/-- C5 (amended): for every failed attempt i < 3 inside one retry
invocation, the delay before attempt i+1 is 120 seconds when the failure
message contains `429`, `quota` or `rate limit` as a CASE-SENSITIVE
substring (the source uses strings.Contains with no folding), otherwise
the baseline 30 seconds; and no delay follows the terminal attempt —
three failing attempts produce exactly two sleeps. -/
theorem c5_rate_limit_classification (env : Env) (sid : String) (p : Prompt)
    (l : LLMConfig) (t : ℚ) (st : EngineState) (f : Nat → String)
    (hprov : env.providers l.provider = true)
    (hdb : ∀ k, env.createResponse k = some (f k)) :
    sleeps (executePromptWithRetry env false sid p l t
        DefaultMaxRetries DefaultRetryDelaySec st).1 =
      [if isRateLimitMsg (f st.writes) then 120 else DefaultRetryDelaySec,
       if isRateLimitMsg (f (st.writes + 1)) then 120 else DefaultRetryDelaySec] ∧
    (executePromptWithRetry env false sid p l t
        DefaultMaxRetries DefaultRetryDelaySec st).2.2 =
      some ("failed after " ++ toString DefaultMaxRetries ++ " attempts, last error: " ++
        f (st.writes + 1 + 1)) := by
  obtain ⟨r1, h1⟩ := executePromptWithLLM_writeFail env sid p l t st
    (f st.writes) hprov (hdb st.writes)
  obtain ⟨r2, h2⟩ := executePromptWithLLM_writeFail env sid p l t
    ⟨st.gen + 1, st.writes + 1, st.draws⟩ (f (st.writes + 1)) hprov (hdb (st.writes + 1))
  obtain ⟨r3, h3⟩ := executePromptWithLLM_writeFail env sid p l t
    ⟨st.gen + 1 + 1, st.writes + 1 + 1, st.draws⟩ (f (st.writes + 1 + 1)) hprov
    (hdb (st.writes + 1 + 1))
  constructor <;>
    simp [executePromptWithRetry, retryAux, h1, h2, h3, sleeps,
      DefaultMaxRetries, DefaultRetryDelaySec]

/-- The run of claim C5's counterexample: the failure message contains
`quota` case-insensitively (as the claim classifies it) but not
case-sensitively, and the observed delays are 30 seconds, not 120. -/
theorem c5_counterexample :
    containsCI "QUOTA limit hit" "quota" = true ∧
    isRateLimitMsg "QUOTA limit hit" = false ∧
    sleeps (executePromptWithRetry envC5 false "s1" pX lX ((1 : ℚ) / 2)
        DefaultMaxRetries DefaultRetryDelaySec ⟨0, 0, 0⟩).1 = [30, 30] := by
  decide

/-- Witness for C5: the amended theorem applied to the environment whose
writes always fail with `QUOTA limit hit`. -/
theorem c5_witness :
    sleeps (executePromptWithRetry envC5 false "s1" pX lX ((1 : ℚ) / 2)
        DefaultMaxRetries DefaultRetryDelaySec ⟨0, 0, 0⟩).1 =
      [if isRateLimitMsg "QUOTA limit hit" then 120 else DefaultRetryDelaySec,
       if isRateLimitMsg "QUOTA limit hit" then 120 else DefaultRetryDelaySec] ∧
    (executePromptWithRetry envC5 false "s1" pX lX ((1 : ℚ) / 2)
        DefaultMaxRetries DefaultRetryDelaySec ⟨0, 0, 0⟩).2.2 =
      some ("failed after " ++ toString DefaultMaxRetries ++ " attempts, last error: " ++
        "QUOTA limit hit") :=
  c5_rate_limit_classification envC5 "s1" pX lX ((1 : ℚ) / 2) ⟨0, 0, 0⟩
    (fun _ => "QUOTA limit hit") rfl (fun _ => rfl)

/-! ### Claim C8 -/

/-- C8 (amended): every Response the engine writes copies the adapter
outcome verbatim: on a transport error the Response has empty text and
carries the error string; on a returned result it carries the result's
text and error fields unchanged.  The engine enforces no non-emptiness —
when generate succeeds with empty text and empty error string the
persisted Response has both fields empty. -/
theorem c8_response_copies_adapter_outcome (env : Env) (ctx : Bool) (sid : String)
    (p : Prompt) (l : LLMConfig) (t : ℚ) (st : EngineState) (r : Response)
    (hw : Event.write r ∈ (executePromptWithLLM env ctx sid p l t st).1) :
    (∃ e, env.generate st.gen = Except.error e ∧ r.responseText = "" ∧ r.error = e) ∨
    (∃ g, env.generate st.gen = Except.ok g ∧
      r.responseText = g.text ∧ r.error = g.error) := by
  cases hpv : env.providers l.provider with
  | false =>
    rw [executePromptWithLLM_noProvider_eq env ctx sid p l t st hpv] at hw
    simp at hw
  | true =>
    cases ctx with
    | true =>
      rw [executePromptWithLLM_cancelled_eq env sid p l t st hpv] at hw
      simp at hw
    | false =>
      cases hg : env.generate st.gen with
      | error e =>
        rw [executePromptWithLLM_genError_eq env sid p l t st e hpv hg] at hw
        simp at hw
        subst hw
        exact Or.inl ⟨e, rfl, rfl, rfl⟩
      | ok g =>
        rw [executePromptWithLLM_genOk_eq env sid p l t st g hpv hg] at hw
        simp at hw
        subst hw
        exact Or.inr ⟨g, rfl, rfl, rfl⟩

/-- The run of claim C8's counterexample: the adapter succeeds with empty
text and empty error, and the engine persists a Response with BOTH fields
empty. -/
theorem c8_counterexample :
    (writtenResponses (executePromptWithLLM envC8 false "s1" pX lX ((1 : ℚ) / 2)
        ⟨0, 0, 0⟩).1).map (fun r => (r.responseText, r.error)) = [("", "")] ∧
    envC8.generate 0 = Except.ok emptyGen ∧
    emptyGen.text = "" ∧ emptyGen.error = "" :=
  ⟨by decide, rfl, rfl, rfl⟩

/-- Witness for C8: the amended theorem applied to the empty-result
environment at the concrete written Response. -/
theorem c8_witness :
    (∃ e, envC8.generate 0 = Except.error e ∧
       (okResponse envC8 "s1" pX lX ((1 : ℚ) / 2) emptyGen).responseText = "" ∧
       (okResponse envC8 "s1" pX lX ((1 : ℚ) / 2) emptyGen).error = e) ∨
    (∃ g, envC8.generate 0 = Except.ok g ∧
       (okResponse envC8 "s1" pX lX ((1 : ℚ) / 2) emptyGen).responseText = g.text ∧
       (okResponse envC8 "s1" pX lX ((1 : ℚ) / 2) emptyGen).error = g.error) :=
  c8_response_copies_adapter_outcome envC8 false "s1" pX lX ((1 : ℚ) / 2) ⟨0, 0, 0⟩
    (okResponse envC8 "s1" pX lX ((1 : ℚ) / 2) emptyGen)
    (by rw [executePromptWithLLM_genOk_eq envC8 "s1" pX lX ((1 : ℚ) / 2) ⟨0, 0, 0⟩
          emptyGen rfl rfl]
        simp)

/-! ### Claim C4 -/

/-- C4 (confirmed): the rate-limit governor keeps exactly one bucket per
provider name with the fixed shape — refill every 60/6 = 10 seconds,
burst capacity 1 — created lazily on first use and returned unchanged to
every later caller (so all schedules and ad-hoc runs using a provider
name share one bucket); and within a unit attempt every adapter generate
call is preceded by a rate-limiter wait on the same provider.  The
double-checked mutex discipline of getRateLimiter is collapsed to its
sequential meaning in this embedding. -/
theorem c4_rate_limiter_per_provider :
    newRateLimiter = ⟨10, 1⟩ ∧
    (∀ m p, lookupLimiter m p = none →
      getRateLimiter m p = (newRateLimiter, (p, newRateLimiter) :: m)) ∧
    (∀ m p l, lookupLimiter m p = some l → getRateLimiter m p = (l, m)) ∧
    (∀ m p, lookupLimiter (getRateLimiter m p).2 p = some (getRateLimiter m p).1) ∧
    (∀ m p, getRateLimiter (getRateLimiter m p).2 p =
      ((getRateLimiter m p).1, (getRateLimiter m p).2)) ∧
    (∀ (env : Env) (ctx : Bool) (sid : String) (p : Prompt) (l : LLMConfig)
        (t : ℚ) (st : EngineState) (prov mdl ptxt : String) (tmp : ℚ) (i : Nat),
      (executePromptWithLLM env ctx sid p l t st).1[i]? =
          some (Event.generate prov mdl ptxt tmp) →
      ∃ j, j < i ∧ (executePromptWithLLM env ctx sid p l t st).1[j]? =
          some (Event.rateWait prov)) := by
  refine ⟨rfl, ?_, ?_, ?_, ?_, ?_⟩
  · intro m p h
    simp [getRateLimiter, h]
  · intro m p l h
    simp [getRateLimiter, h]
  · intro m p
    cases h : lookupLimiter m p with
    | none => simp [getRateLimiter, h, lookupLimiter]
    | some l => simp [getRateLimiter, h]
  · intro m p
    cases h : lookupLimiter m p with
    | none => simp [getRateLimiter, h, lookupLimiter]
    | some l => simp [getRateLimiter, h]
  · intro env ctx sid p l t st prov mdl ptxt tmp i hi
    cases hpv : env.providers l.provider with
    | false =>
      rw [executePromptWithLLM_noProvider_eq env ctx sid p l t st hpv] at hi
      simp at hi
    | true =>
      cases ctx with
      | true =>
        rw [executePromptWithLLM_cancelled_eq env sid p l t st hpv] at hi
        rcases i with _ | i <;> simp_all
      | false =>
        cases hg : env.generate st.gen with
        | error e =>
          rw [executePromptWithLLM_genError_eq env sid p l t st e hpv hg] at hi
          rcases i with _ | _ | _ | i
          · simp at hi
          · simp at hi
            refine ⟨0, by omega, ?_⟩
            rw [executePromptWithLLM_genError_eq env sid p l t st e hpv hg]
            simp [hi.1]
          · simp at hi
          · simp at hi
        | ok g =>
          rw [executePromptWithLLM_genOk_eq env sid p l t st g hpv hg] at hi
          rcases i with _ | _ | _ | i
          · simp at hi
          · simp at hi
            refine ⟨0, by omega, ?_⟩
            rw [executePromptWithLLM_genOk_eq env sid p l t st g hpv hg]
            simp [hi.1]
          · simp at hi
          · simp at hi

/-- Witness for C4: lazy creation on first use, and reuse of the existing
bucket on second use, for provider `openai`. -/
theorem c4_witness :
    getRateLimiter [] "openai" = (newRateLimiter, [("openai", newRateLimiter)]) ∧
    getRateLimiter [("openai", newRateLimiter)] "openai" =
      (newRateLimiter, [("openai", newRateLimiter)]) :=
  ⟨c4_rate_limiter_per_provider.2.1 [] "openai" rfl,
   c4_rate_limiter_per_provider.2.2.1 [("openai", newRateLimiter)] "openai"
     newRateLimiter (by decide)⟩

/-! ### Claim C10 -/

/-- Every event of the ad-hoc fan-out originates in a unit run for one of
the resolved configurations, with the empty schedule id and the literal
temperature 7/10 passed by ExecutePrompt. -/
theorem eventFromUnit_runAdHoc (env : Env) (ctx : Bool) (prompt : Prompt) :
    ∀ (lls : List LLMConfig) (st : EngineState) (e : Event),
      e ∈ (runAdHoc env ctx prompt lls st).1 →
      ∃ l, l ∈ lls ∧ EventFromUnit "" prompt l ((7 : ℚ) / 10) DefaultRetryDelaySec e := by
  intro lls
  induction lls with
  | nil =>
    intro st e he
    simp [runAdHoc] at he
  | cons l rest ih =>
    intro st e he
    rw [runAdHoc] at he
    simp only [List.mem_append] at he
    rcases he with h | h
    · exact ⟨l, List.mem_cons_self l rest,
        eventFromUnit_executePromptWithRetry env ctx "" prompt l ((7 : ℚ) / 10)
          DefaultMaxRetries DefaultRetryDelaySec st e h⟩
    · obtain ⟨l2, hl2, hP⟩ := ih _ e h
      exact ⟨l2, List.mem_cons_of_mem l hl2, hP⟩

/-- C10 (confirmed): every adapter call dispatched by ExecutePrompt uses
temperature 7/10 = 0.7, and every Response it persists carries
temperature 0.7 and an empty schedule id. -/
theorem c10_adhoc_fixed_temperature (env : Env) (ctx : Bool) (promptID : String)
    (llmIDs : List String) (st : EngineState) :
    ∀ e ∈ (ExecutePrompt env ctx promptID llmIDs st).1,
      (∀ prov mdl ptxt tmp, e = Event.generate prov mdl ptxt tmp →
        tmp = (7 : ℚ) / 10) ∧
      (∀ r, e = Event.write r →
        r.temperature = (7 : ℚ) / 10 ∧ r.scheduleID = "") := by
  intro e he
  unfold ExecutePrompt at he
  cases hp : env.getPrompt promptID with
  | none =>
    rw [hp] at he
    simp at he
  | some prompt =>
    rw [hp] at he
    simp only [] at he
    obtain ⟨l, _, hP⟩ := eventFromUnit_runAdHoc env ctx prompt _ st e he
    constructor
    · intro prov mdl ptxt tmp heq
      subst heq
      simp only [EventFromUnit] at hP
      exact hP.2.2.2
    · intro r heq
      subst heq
      simp only [EventFromUnit] at hP
      exact ⟨hP.2.2.2.2.2.2.1, hP.2.2.2.2.2.2.2⟩

/-- Witness for C10: the theorem applied to the benign environment, at the
Response written for model `m1`. -/
theorem c10_witness :
    (okResponse envBase "" pX lM1 ((7 : ℚ) / 10) okGen).temperature = (7 : ℚ) / 10 ∧
    (okResponse envBase "" pX lM1 ((7 : ℚ) / 10) okGen).scheduleID = "" := by
  have hu := executePromptWithLLM_genOk_eq envBase "" pX lM1 ((7 : ℚ) / 10)
    ⟨0, 0, 0⟩ okGen rfl rfl
  have hr : executePromptWithRetry envBase false "" pX lM1 ((7 : ℚ) / 10)
      DefaultMaxRetries DefaultRetryDelaySec ⟨0, 0, 0⟩ =
      ([Event.rateWait lM1.provider,
        Event.generate lM1.provider lM1.model pX.template ((7 : ℚ) / 10),
        Event.write (okResponse envBase "" pX lM1 ((7 : ℚ) / 10) okGen)],
       ⟨1, 1, 0⟩, none) :=
    retryAux_attempt_ok envBase false "" pX lM1 ((7 : ℚ) / 10)
      DefaultMaxRetries DefaultRetryDelaySec 2 ⟨0, 0, 0⟩ "" _ _ hu
  refine (c10_adhoc_fixed_temperature envBase false "p1" ["m1"] ⟨0, 0, 0⟩
    (Event.write (okResponse envBase "" pX lM1 ((7 : ℚ) / 10) okGen)) ?_).2 _ rfl
  show Event.write _ ∈ (ExecutePrompt envBase false "p1" ["m1"] ⟨0, 0, 0⟩).1
  unfold ExecutePrompt
  show Event.write _ ∈ (runAdHoc envBase false pX [lM1] ⟨0, 0, 0⟩).1
  rw [runAdHoc, hr]
  simp

/-! ### Claim C2 -/

/-- A unit run under the random-temperature sentinel consumes exactly one
PRNG draw (taken before the retry loop, which itself never draws). -/
theorem runUnit_draws (env : Env) (ctx : Bool) (sched : Schedule) (p : Prompt)
    (l : LLMConfig) (st : EngineState) (hT : sched.temperature = -1) :
    (runUnit env ctx sched p l st).2.draws = st.draws + 1 := by
  have h := retryAux_draws env ctx sched.id p l (env.rand st.draws)
    DefaultMaxRetries DefaultRetryDelaySec DefaultMaxRetries
    ⟨st.gen, st.writes, st.draws + 1⟩ ""
  simp [runUnit, hT, executePromptWithRetry, h]

/-- Across the fan-out, one draw per dispatched (prompt, model) pair. -/
theorem runPairs_draws (env : Env) (ctx : Bool) (sched : Schedule)
    (hT : sched.temperature = -1) :
    ∀ (pairs : List (Prompt × LLMConfig)) (st : EngineState),
      (runPairs env ctx sched pairs st).2.draws = st.draws + pairs.length := by
  intro pairs
  induction pairs with
  | nil =>
    intro st
    simp [runPairs]
  | cons pl rest ih =>
    intro st
    rcases pl with ⟨p, l⟩
    rw [runPairs]
    simp only []
    rw [ih, runUnit_draws env ctx sched p l st hT]
    simp [List.length_cons]
    omega

/-- The (prompt, model) matrix has one entry per prompt-model pair. -/
theorem length_matrix (prompts : List Prompt) (llms : List LLMConfig) :
    (prompts.flatMap fun p => llms.map fun l => (p, l)).length =
      prompts.length * llms.length := by
  induction prompts with
  | nil => simp
  | cons p rest ih =>
    simp [ih, Nat.succ_mul, Nat.add_comm]

/-- C2 (amended): under the sentinel temperature -1, one uniform sample is
drawn per dispatched (prompt, model) pair — the draw happens inside each
execution unit, not once per prompt — so a firing consumes exactly
|loaded prompts| * |enabled loaded models| draws. -/
theorem c2_draw_per_pair (env : Env) (ctx : Bool) (sched : Schedule)
    (st : EngineState) (hT : sched.temperature = -1) :
    (executeSchedule env ctx sched st).2.draws =
      st.draws +
        (loadPrompts env sched.promptIDs).length * (loadLLMs env sched.llmIDs).length := by
  unfold executeSchedule
  rw [runPairs_draws env ctx sched hT, length_matrix]

/-- The run of claim C2's counterexample: a sentinel schedule with one
prompt and two models persists two Responses for the same prompt with two
DIFFERENT temperatures (the successive PRNG draws 3/10 and 7/10). -/
theorem c2_counterexample :
    (writtenResponses (executeSchedule envBase false schedC2 ⟨0, 0, 0⟩).1).map
        (fun r => (r.promptID, r.temperature)) =
      [("p1", q3o10), ("p1", q7o10)] ∧
    q3o10 ≠ q7o10 ∧ 0 ≤ q3o10 ∧ q3o10 < 1 ∧ 0 ≤ q7o10 ∧ q7o10 < 1 := by
  refine ⟨by decide, by decide, by decide, by decide, by decide, by decide⟩

/-- Witness for C2: the amended theorem applied to the sentinel schedule.  -/
theorem c2_witness :
    (executeSchedule envBase false schedC2 ⟨0, 0, 0⟩).2.draws =
      0 + (loadPrompts envBase schedC2.promptIDs).length *
        (loadLLMs envBase schedC2.llmIDs).length :=
  c2_draw_per_pair envBase false schedC2 ⟨0, 0, 0⟩ rfl

/-! ### Claim C7 -/

/-- Every event of a scheduled firing originates in a unit for one of the
dispatched (prompt, model) pairs, at some temperature. -/
theorem eventFromUnit_runPairs (env : Env) (ctx : Bool) (sched : Schedule) :
    ∀ (pairs : List (Prompt × LLMConfig)) (st : EngineState) (e : Event),
      e ∈ (runPairs env ctx sched pairs st).1 →
      ∃ pl, pl ∈ pairs ∧
        ∃ tt, EventFromUnit sched.id pl.1 pl.2 tt DefaultRetryDelaySec e := by
  intro pairs
  induction pairs with
  | nil =>
    intro st e he
    simp [runPairs] at he
  | cons pl rest ih =>
    intro st e he
    rcases pl with ⟨p, l⟩
    rw [runPairs] at he
    simp only [List.mem_append] at he
    rcases he with h | h
    · refine ⟨(p, l), List.mem_cons_self _ _, ?_⟩
      simp only [runUnit] at h
      exact ⟨_, eventFromUnit_executePromptWithRetry env ctx sched.id p l _
        DefaultMaxRetries DefaultRetryDelaySec _ e h⟩
    · obtain ⟨pl2, hpl2, hP⟩ := ih _ e h
      exact ⟨pl2, List.mem_cons_of_mem _ hpl2, hP⟩

/-- C7 (amended): scheduled firings never dispatch a disabled model —
every model loaded for the matrix is enabled, and every Response persisted
by a firing references one of those enabled models.  (The ad-hoc
ExecutePrompt path, by contrast, performs no enabled check; see the
counterexample.) -/
theorem c7_scheduled_skips_disabled (env : Env) (ctx : Bool) (sched : Schedule)
    (st : EngineState) :
    (∀ l ∈ loadLLMs env sched.llmIDs, l.enabled = true) ∧
    (∀ r, Event.write r ∈ (executeSchedule env ctx sched st).1 →
      ∃ l, l ∈ loadLLMs env sched.llmIDs ∧ l.enabled = true ∧ r.llmID = l.id) := by
  constructor
  · intro l hl
    exact (List.mem_filter.mp hl).2
  · intro r hw
    unfold executeSchedule at hw
    obtain ⟨⟨p, l⟩, hpl, tt, hP⟩ := eventFromUnit_runPairs env ctx sched _ st _ hw
    simp only [List.mem_flatMap, List.mem_map] at hpl
    obtain ⟨p2, _, l2, hl2, heq⟩ := hpl
    have heql : l2 = l := by
      simpa using congrArg Prod.snd heq
    subst heql
    simp only [EventFromUnit] at hP
    exact ⟨l2, hl2, (List.mem_filter.mp hl2).2, hP.2.2.1⟩

/-- The run of claim C7's counterexample: the ad-hoc ExecutePrompt path
resolves a DISABLED configuration (enabled = false), still invokes the
adapter once for it, and persists a Response referencing it. -/
theorem c7_counterexample :
    (envC7.getLLM "m2").map (fun l => l.enabled) = some false ∧
    (writtenResponses (ExecutePrompt envC7 false "p1" ["m2"] ⟨0, 0, 0⟩).1).map
        (fun r => r.llmID) = ["m2"] ∧
    generateCount (ExecutePrompt envC7 false "p1" ["m2"] ⟨0, 0, 0⟩).1 = 1 := by
  decide

/-- Witness for C7: the amended theorem applied to the benign environment
and the fixed-temperature schedule, at the model it loads. -/
theorem c7_witness : lM1.enabled = true :=
  (c7_scheduled_skips_disabled envBase false schedC3 ⟨0, 0, 0⟩).1 lM1 (by decide)

/-! ### Claim C9: the cursor-loop aggregation, component by component -/

/-- Total mentions accumulate the per-document occurrence counts. -/
theorem searchFold_total (keyword : String) :
    ∀ (ms : List Response) (acc : SearchAcc),
      (ms.foldl (searchStep keyword) acc).totalMentions =
        acc.totalMentions +
          (ms.map fun d => CountOccurrences d.responseText keyword).sum := by
  intro ms
  induction ms with
  | nil =>
    intro acc
    simp
  | cons d rest ih =>
    intro acc
    simp only [List.foldl_cons, List.map_cons, List.sum_cons]
    rw [ih]
    simp only [searchStep]
    omega

/-- The promptsSeen set collects exactly the prompt ids of the processed
documents, without duplicates. -/
theorem searchFold_promptsSeen (keyword : String) :
    ∀ (ms : List Response) (acc : SearchAcc),
      ((ms.foldl (searchStep keyword) acc).promptsSeen.toFinset =
        acc.promptsSeen.toFinset ∪ (ms.map fun d => d.promptID).toFinset) ∧
      (acc.promptsSeen.Nodup → (ms.foldl (searchStep keyword) acc).promptsSeen.Nodup) := by
  intro ms
  induction ms with
  | nil =>
    intro acc
    simp
  | cons d rest ih =>
    intro acc
    simp only [List.foldl_cons, List.map_cons]
    constructor
    · rw [(ih (searchStep keyword acc d)).1]
      by_cases hm : d.promptID ∈ acc.promptsSeen
      · have hseen : (searchStep keyword acc d).promptsSeen = acc.promptsSeen := by
          simp [searchStep, hm]
        rw [hseen]
        ext x
        simp only [Finset.mem_union, List.mem_toFinset, List.toFinset_cons,
          Finset.mem_insert]
        constructor
        · tauto
        · intro h
          rcases h with h | h | h
          · tauto
          · subst h
            exact Or.inl hm
          · tauto
      · have hseen : (searchStep keyword acc d).promptsSeen =
            d.promptID :: acc.promptsSeen := by
          simp [searchStep, hm]
        rw [hseen]
        ext x
        simp only [List.toFinset_cons, Finset.mem_union, Finset.mem_insert,
          List.mem_toFinset]
        tauto
    · intro hnd
      refine (ih (searchStep keyword acc d)).2 ?_
      by_cases hm : d.promptID ∈ acc.promptsSeen
      · simpa [searchStep, hm] using hnd
      · simp [searchStep, hm, List.nodup_cons, hnd]

/-- The llmsSeen set collects exactly the model ids of the processed
documents, without duplicates. -/
theorem searchFold_llmsSeen (keyword : String) :
    ∀ (ms : List Response) (acc : SearchAcc),
      ((ms.foldl (searchStep keyword) acc).llmsSeen.toFinset =
        acc.llmsSeen.toFinset ∪ (ms.map fun d => d.llmID).toFinset) ∧
      (acc.llmsSeen.Nodup → (ms.foldl (searchStep keyword) acc).llmsSeen.Nodup) := by
  intro ms
  induction ms with
  | nil =>
    intro acc
    simp
  | cons d rest ih =>
    intro acc
    simp only [List.foldl_cons, List.map_cons]
    constructor
    · rw [(ih (searchStep keyword acc d)).1]
      by_cases hm : d.llmID ∈ acc.llmsSeen
      · have hseen : (searchStep keyword acc d).llmsSeen = acc.llmsSeen := by
          simp [searchStep, hm]
        rw [hseen]
        ext x
        simp only [Finset.mem_union, List.mem_toFinset, List.toFinset_cons,
          Finset.mem_insert]
        constructor
        · tauto
        · intro h
          rcases h with h | h | h
          · tauto
          · subst h
            exact Or.inl hm
          · tauto
      · have hseen : (searchStep keyword acc d).llmsSeen =
            d.llmID :: acc.llmsSeen := by
          simp [searchStep, hm]
        rw [hseen]
        ext x
        simp only [List.toFinset_cons, Finset.mem_union, Finset.mem_insert,
          List.mem_toFinset]
        tauto
    · intro hnd
      refine (ih (searchStep keyword acc d)).2 ?_
      by_cases hm : d.llmID ∈ acc.llmsSeen
      · simpa [searchStep, hm] using hnd
      · simp [searchStep, hm, List.nodup_cons, hnd]

/-- The first-seen component of the fold is the pure foldFirst of the
created_at sequence. -/
theorem searchFold_firstSeen_eq (keyword : String) :
    ∀ (ms : List Response) (acc : SearchAcc),
      (ms.foldl (searchStep keyword) acc).firstSeen =
        foldFirst acc.firstSeen (ms.map fun d => d.createdAt) := by
  intro ms
  induction ms with
  | nil =>
    intro acc
    simp [foldFirst]
  | cons d rest ih =>
    intro acc
    simp only [List.foldl_cons, List.map_cons, foldFirst]
    rw [ih]
    simp [searchStep]

/-- The last-seen component of the fold is the pure foldLast of the
created_at sequence. -/
theorem searchFold_lastSeen_eq (keyword : String) :
    ∀ (ms : List Response) (acc : SearchAcc),
      (ms.foldl (searchStep keyword) acc).lastSeen =
        foldLast acc.lastSeen (ms.map fun d => d.createdAt) := by
  intro ms
  induction ms with
  | nil =>
    intro acc
    simp [foldLast]
  | cons d rest ih =>
    intro acc
    simp only [List.foldl_cons, List.map_cons, foldLast]
    rw [ih]
    simp [searchStep]

/-- With a positive accumulator and positive entries, foldFirst computes a
lower bound attained in the accumulator or the list. -/
theorem foldFirst_pos_spec :
    ∀ (l : List Nat) (a : Nat), (∀ x ∈ l, 0 < x) → 0 < a →
      (foldFirst a l = a ∨ foldFirst a l ∈ l) ∧
      foldFirst a l ≤ a ∧ (∀ x ∈ l, foldFirst a l ≤ x) := by
  intro l
  induction l with
  | nil =>
    intro a _ _
    simp [foldFirst]
  | cons c rest ih =>
    intro a hpos ha
    have hc : 0 < c := hpos c (by simp)
    have hrest : ∀ x ∈ rest, 0 < x := fun x hx => hpos x (by simp [hx])
    simp only [foldFirst]
    by_cases hlt : c < a
    · rw [if_pos (Or.inr hlt)]
      obtain ⟨hmem, hle, hbound⟩ := ih c hrest hc
      refine ⟨?_, by omega, ?_⟩
      · rcases hmem with h | h
        · exact Or.inr (by simp [h])
        · exact Or.inr (by simp [h])
      · intro x hx
        rcases List.mem_cons.mp hx with h | h
        · omega
        · exact hbound x h
    · rw [if_neg (by omega)]
      obtain ⟨hmem, hle, hbound⟩ := ih a hrest ha
      refine ⟨?_, hle, ?_⟩
      · rcases hmem with h | h
        · exact Or.inl h
        · exact Or.inr (by simp [h])
      · intro x hx
        rcases List.mem_cons.mp hx with h | h
        · omega
        · exact hbound x h

/-- From the zero (unset) accumulator, foldFirst of a non-empty positive
list is its minimum: a member no larger than any member. -/
theorem foldFirst_zero_spec (l : List Nat) (hpos : ∀ x ∈ l, 0 < x) (hne : l ≠ []) :
    foldFirst 0 l ∈ l ∧ ∀ x ∈ l, foldFirst 0 l ≤ x := by
  cases l with
  | nil => simp at hne
  | cons c rest =>
    have hc : 0 < c := hpos c (by simp)
    have hrest : ∀ x ∈ rest, 0 < x := fun x hx => hpos x (by simp [hx])
    have hstep : foldFirst 0 (c :: rest) = foldFirst c rest := by
      simp [foldFirst]
    rw [hstep]
    obtain ⟨hmem, hle, hbound⟩ := foldFirst_pos_spec rest c hrest hc
    constructor
    · rcases hmem with h | h
      · simp [h]
      · simp [h]
    · intro x hx
      rcases List.mem_cons.mp hx with h | h
      · omega
      · exact hbound x h

/-- With a positive accumulator, foldLast computes an upper bound attained
in the accumulator or the list. -/
theorem foldLast_pos_spec :
    ∀ (l : List Nat) (a : Nat), 0 < a →
      (foldLast a l = a ∨ foldLast a l ∈ l) ∧
      a ≤ foldLast a l ∧ (∀ x ∈ l, x ≤ foldLast a l) := by
  intro l
  induction l with
  | nil =>
    intro a _
    simp [foldLast]
  | cons c rest ih =>
    intro a ha
    simp only [foldLast]
    by_cases hlt : a < c
    · rw [if_pos (Or.inr hlt)]
      obtain ⟨hmem, hle, hbound⟩ := ih c (by omega)
      refine ⟨?_, by omega, ?_⟩
      · rcases hmem with h | h
        · exact Or.inr (by simp [h])
        · exact Or.inr (by simp [h])
      · intro x hx
        rcases List.mem_cons.mp hx with h | h
        · omega
        · exact hbound x h
    · rw [if_neg (by omega)]
      obtain ⟨hmem, hle, hbound⟩ := ih a ha
      refine ⟨?_, hle, ?_⟩
      · rcases hmem with h | h
        · exact Or.inl h
        · exact Or.inr (by simp [h])
      · intro x hx
        rcases List.mem_cons.mp hx with h | h
        · omega
        · exact hbound x h

/-- From the zero accumulator, foldLast of a non-empty positive list is
its maximum. -/
theorem foldLast_zero_spec (l : List Nat) (hpos : ∀ x ∈ l, 0 < x) (hne : l ≠ []) :
    foldLast 0 l ∈ l ∧ ∀ x ∈ l, x ≤ foldLast 0 l := by
  cases l with
  | nil => simp at hne
  | cons c rest =>
    have hc : 0 < c := hpos c (by simp)
    have hstep : foldLast 0 (c :: rest) = foldLast c rest := by
      simp [foldLast]
    rw [hstep]
    obtain ⟨hmem, hle, hbound⟩ := foldLast_pos_spec rest c hc
    constructor
    · rcases hmem with h | h
      · simp [h]
      · simp [h]
    · intro x hx
      rcases List.mem_cons.mp hx with h | h
      · omega
      · exact hbound x h

/-- C9 (confirmed): SearchKeyword aggregates over exactly the responses
that match the case-insensitive substring query inside the inclusive time
window: total mentions is the sum of the per-match occurrence counts,
unique prompts / unique models are the numbers of distinct prompt / model
ids among the matches, and first-seen / last-seen are the minimum and
maximum created_at among the matches (stated for collections whose
created_at instants are non-zero, as the Go zero time never occurs on
stored rows). -/
theorem c9_search_keyword_aggregates (docs : List Response) (keyword : String)
    (startT endT : Option Nat) (ms : List Response)
    (hms : ms = docs.filter (matchesQuery keyword startT endT))
    (hpos : ∀ d ∈ docs, 0 < d.createdAt)
    (hne : ms ≠ []) :
    (SearchKeyword docs keyword startT endT).totalMentions =
      (ms.map fun d => CountOccurrences d.responseText keyword).sum ∧
    (SearchKeyword docs keyword startT endT).uniquePrompts =
      ((ms.map fun d => d.promptID).toFinset).card ∧
    (SearchKeyword docs keyword startT endT).uniqueLLMs =
      ((ms.map fun d => d.llmID).toFinset).card ∧
    (SearchKeyword docs keyword startT endT).firstSeen ∈
      (ms.map fun d => d.createdAt) ∧
    (∀ x ∈ ms.map fun d => d.createdAt,
      (SearchKeyword docs keyword startT endT).firstSeen ≤ x) ∧
    (SearchKeyword docs keyword startT endT).lastSeen ∈
      (ms.map fun d => d.createdAt) ∧
    (∀ x ∈ ms.map fun d => d.createdAt,
      x ≤ (SearchKeyword docs keyword startT endT).lastSeen) := by
  have hposm : ∀ x ∈ ms.map fun d => d.createdAt, 0 < x := by
    intro x hx
    simp only [List.mem_map] at hx
    obtain ⟨d, hd, hdx⟩ := hx
    subst hdx
    exact hpos d (List.mem_of_mem_filter (hms ▸ hd))
  have hnem : (ms.map fun d => d.createdAt) ≠ [] := by
    simpa using hne
  have hTot : (SearchKeyword docs keyword startT endT).totalMentions =
      (ms.foldl (searchStep keyword) searchInit).totalMentions := by
    rw [hms]
    rfl
  have hUP : (SearchKeyword docs keyword startT endT).uniquePrompts =
      (ms.foldl (searchStep keyword) searchInit).promptsSeen.length := by
    rw [hms]
    rfl
  have hUL : (SearchKeyword docs keyword startT endT).uniqueLLMs =
      (ms.foldl (searchStep keyword) searchInit).llmsSeen.length := by
    rw [hms]
    rfl
  have hFS : (SearchKeyword docs keyword startT endT).firstSeen =
      (ms.foldl (searchStep keyword) searchInit).firstSeen := by
    rw [hms]
    rfl
  have hLS : (SearchKeyword docs keyword startT endT).lastSeen =
      (ms.foldl (searchStep keyword) searchInit).lastSeen := by
    rw [hms]
    rfl
  refine ⟨?_, ?_, ?_, ?_, ?_, ?_, ?_⟩
  · rw [hTot, searchFold_total keyword ms searchInit]
    simp [searchInit]
  · rw [hUP]
    have hset := searchFold_promptsSeen keyword ms searchInit
    have hnd : (ms.foldl (searchStep keyword) searchInit).promptsSeen.Nodup :=
      hset.2 (by simp [searchInit])
    have hfin : (ms.foldl (searchStep keyword) searchInit).promptsSeen.toFinset =
        (ms.map fun d => d.promptID).toFinset := by
      rw [hset.1]
      simp [searchInit]
    rw [← hfin, List.toFinset_card_of_nodup hnd]
  · rw [hUL]
    have hset := searchFold_llmsSeen keyword ms searchInit
    have hnd : (ms.foldl (searchStep keyword) searchInit).llmsSeen.Nodup :=
      hset.2 (by simp [searchInit])
    have hfin : (ms.foldl (searchStep keyword) searchInit).llmsSeen.toFinset =
        (ms.map fun d => d.llmID).toFinset := by
      rw [hset.1]
      simp [searchInit]
    rw [← hfin, List.toFinset_card_of_nodup hnd]
  · rw [hFS, searchFold_firstSeen_eq keyword ms searchInit]
    exact (foldFirst_zero_spec _ hposm hnem).1
  · intro x hx
    rw [hFS, searchFold_firstSeen_eq keyword ms searchInit]
    exact (foldFirst_zero_spec _ hposm hnem).2 x hx
  · rw [hLS, searchFold_lastSeen_eq keyword ms searchInit]
    exact (foldLast_zero_spec _ hposm hnem).1
  · intro x hx
    rw [hLS, searchFold_lastSeen_eq keyword ms searchInit]
    exact (foldLast_zero_spec _ hposm hnem).2 x hx

/-- Witness for C9: the theorem applied to the three-document collection
with keyword `Netflix`. -/
theorem c9_witness :
    (SearchKeyword docsC9 "Netflix" none none).totalMentions =
      ((docsC9.filter (matchesQuery "Netflix" none none)).map
        (fun d => CountOccurrences d.responseText "Netflix")).sum ∧
    (SearchKeyword docsC9 "Netflix" none none).uniquePrompts =
      (((docsC9.filter (matchesQuery "Netflix" none none)).map
        (fun d => d.promptID)).toFinset).card :=
  ⟨(c9_search_keyword_aggregates docsC9 "Netflix" none none _ rfl
      (by decide) (by decide)).1,
   (c9_search_keyword_aggregates docsC9 "Netflix" none none _ rfl
      (by decide) (by decide)).2.1⟩

end Gego
